import Mathlib

/-!
Verification development for the Lakeshore 218 / Lakeshore 370 temperature
controller drivers (`pylablib/devices/Lakeshore/base.py`).

The drivers are a translation table between method calls and SCPI-style ASCII
commands sent over a serial link.  We embed each driver method as a pure
function from a device-model state to a result, the updated device state, and
the ordered list of commands put on the wire.  Commands are modelled
structurally (mnemonic plus the argument values, in order) rather than as
rendered ASCII, except where the driver itself parses raw reply text
(`get_all_temperatures`, `get_heater_settings_openloop`), where the reply is
modelled as a list of characters and the driver's split/strip/float parsing is
embedded directly.

The SCPI/transport layer (`SCPI.SCPIDevice`, `interface.use_parameters`,
`funcargparse`) and the instruments themselves are not part of the source
file; definitions standing in for them are marked `Modelled from the spec:`.
-/

/-- Dynamic Python value carried in a wire command or returned by a driver
method whose static type is not fixed. -/
inductive PyVal where
  | int (n : ℤ)
  | float (q : ℚ)
  | str (s : String)
  | bool (b : Bool)
deriving DecidableEq

/-- A command or query put on the wire: mnemonic plus argument values in
order.  This is the structural reading of the ASCII strings the driver
formats. -/
inductive Cmd where
  | write (name : String) (args : List PyVal)
  | ask (name : String) (args : List PyVal)
deriving DecidableEq

/-- Errors raised by the driver layer: invalid-parameter validation failures
(`interface` parameter classes, `funcargparse`) and Python IndexError. -/
inductive PyErr where
  | invalidParameter (name : String)
  | indexError
deriving DecidableEq

/-! ## Wire text utilities

The 218 driver parses the raw `KRDG? 0` reply itself
(`[float(x.strip()) for x in data.split(",")]`), and the 370 driver parses the
raw `CSET?` reply (`[s.strip() for s in self.ask("CSET?").split(",")]` and
`float(cset_reply[6])`).  We embed the reply text as `List Char` and Python's
`str.split(",")`, `str.strip()` and `float()` (on plain decimal literals, the
only shape the modelled instrument produces) as the functions below. -/

/-- Numeric value of a decimal digit character. -/
def digitToNat (c : Char) : Nat := c.toNat - 48

/-- Value of a string of decimal digit characters, most significant first:
the semantics Python's int/float parsing gives the digit run. -/
def digitsVal (l : List Char) : Nat :=
  l.foldl (fun a c => a * 10 + digitToNat c) 0

/-- Decimal digit characters of a natural number, most significant first. -/
def natDigits (n : Nat) : List Char :=
  if _h : n < 10 then [Nat.digitChar n]
  else natDigits (n / 10) ++ [Nat.digitChar (n % 10)]
decreasing_by exact Nat.div_lt_self (by omega) (by omega)

/-- Python `float()` on a plain decimal literal `digits` or `digits.digits`:
integer part plus fractional part scaled by the number of fractional
digits. -/
def pyFloatChars (l : List Char) : ℚ :=
  match l.dropWhile (fun c => decide (c ≠ '.')) with
  | [] => (digitsVal (l.takeWhile (fun c => decide (c ≠ '.'))) : ℚ)
  | _ :: frac =>
      (digitsVal (l.takeWhile (fun c => decide (c ≠ '.'))) : ℚ) +
        (digitsVal frac : ℚ) / (10 : ℚ) ^ frac.length

/-- Whitespace recognised by Python `str.strip()`. -/
def isSpaceChar (c : Char) : Bool :=
  c == ' ' || c == '\t' || c == '\n' || c == '\r'

/-- Python `str.strip()`: drop whitespace from both ends. -/
def pyStrip (l : List Char) : List Char :=
  ((l.dropWhile isSpaceChar).reverse.dropWhile isSpaceChar).reverse

/-- Python `str.split(",")`. -/
def splitComma : List Char → List (List Char)
  | [] => [[]]
  | c :: rest =>
    if c = ',' then [] :: splitComma rest
    else
      match splitComma rest with
      | [] => [[c]]
      | f :: fs => (c :: f) :: fs

/-- Join fields with comma separators (how the modelled instrument assembles a
multi-field ASCII reply). -/
def joinComma : List (List Char) → List Char
  | [] => []
  | [f] => f
  | f :: fs => f ++ ',' :: joinComma fs

/-- Fixed three fractional digits of a milli-unit remainder `m < 1000`. -/
def frac3 (m : Nat) : List Char :=
  [Nat.digitChar (m / 100), Nat.digitChar (m / 10 % 10), Nat.digitChar (m % 10)]

/-- Modelled from the spec: the instrument renders one Kelvin reading, held
here in milliKelvin, as a decimal ASCII field with three fractional digits
("replies being comma-separated ASCII fields"). -/
def renderMilliK (n : Nat) : List Char :=
  natDigits (n / 1000) ++ '.' :: frac3 (n % 1000)

/-! ## Lakeshore 218 device model and driver methods -/

/-- Device-side analog output settings of the 218 (`ANALOG` command fields,
in device representation: mode and source as integer codes). -/
structure AnalogRaw where
  bipolar : Bool
  mode : ℤ
  channel : ℤ
  source : ℤ
  high_value : ℚ
  low_value : ℚ
  man_value : ℚ
deriving DecidableEq

/-- User-facing analog output settings, mirroring
`TLakeshore218AnalogSettings` after the `use_parameters` return translation
(mode and source as symbolic names). -/
structure AnalogSettings where
  bipolar : Bool
  mode : String
  channel : ℤ
  source : String
  high_value : ℚ
  low_value : ℚ
  man_value : ℚ
deriving DecidableEq

/-- Modelled from the spec: the state the Lakeshore 218 instrument (an
external collaborator, not in the source) holds and this driver reads and
writes: per-channel INPUT enable flags, per-group INTYPE sensor codes,
per-output ANALOG settings, and the current Kelvin readings (in milliKelvin)
reported by `KRDG? 0` for channels 1..8 in order. -/
structure Dev218 where
  inputEnabled : ℤ → Bool
  sensorType : String → ℤ
  analog : ℤ → AnalogRaw
  tempsMilliK : List Nat

/-- Modelled from the spec: the 218 instrument applying a configuration
command it receives (the meanings of `INPUT`, `INTYPE` and `ANALOG` fixed by
the instrument's programming manual). Unrecognised commands leave the state
unchanged. -/
def devApply218 (dev : Dev218) : Cmd → Dev218
  | .write "INPUT" [.int ch, .int v] =>
      { dev with inputEnabled := fun x => if x = ch then v != 0 else dev.inputEnabled x }
  | .write "INTYPE" [.str g, .int t] =>
      { dev with sensorType := fun x => if x = g then t else dev.sensorType x }
  | .write "ANALOG" [.int o, .bool b, .int m, .int ch, .int s, .float hv, .float lv, .float mv] =>
      { dev with analog := fun x => if x = o then ⟨b, m, ch, s, hv, lv, mv⟩ else dev.analog x }
  | _ => dev

/-- Modelled from the spec: the raw comma-separated reply the instrument
gives to the all-channels temperature query `KRDG? 0`. -/
def krdgAllReply (dev : Dev218) : List Char :=
  joinComma (dev.tempsMilliK.map renderMilliK)

/-- Sensor type enumeration of `_p_sensor_type`: symbolic alias to device
code. -/
def sensorTypeEnum : List (String × ℤ) :=
  [("diode_2.5", 0), ("diode_7.5", 1), ("plat_250", 2), ("plat_500", 3),
   ("plat_5k", 4), ("cernox", 5)]

/-- Output mode enumeration of `_p_output_mode`. -/
def outputModeEnum : List (String × ℤ) :=
  [("off", 0), ("input", 1), ("manual", 2)]

/-- Source enumeration of `_p_source`. -/
def sourceEnum : List (String × ℤ) :=
  [("kelvin", 1), ("celsius", 2), ("sensor", 3), ("linear", 4)]

/-- Modelled from the spec: the device-to-alias direction of an
`EnumParameterClass`, used where a method is decorated with `_returns`
("typed getters/setters"; returns are translated back to symbolic values). -/
def revLookup (l : List (String × ℤ)) (v : ℤ) : Option String :=
  match l with
  | [] => none
  | (a, w) :: rest => if w = v then some a else revLookup rest v

/-- Modelled from the spec: the alias-to-device direction of
`interface.use_parameters` on an optional argument: `none` is passed through
("any unset field defaults to the currently-read value"), a provided alias is
translated, and an unknown alias is an invalid-parameter error (`none`
result). -/
def mapOptEnum (l : List (String × ℤ)) : Option String → Option (Option ℤ)
  | none => some none
  | some a => (l.lookup a).map some

/-- Modelled from the spec: a `RangeParameterClass` check on an optional
integer argument (`none` passes through). -/
def checkOptRange (lo hi : ℤ) : Option ℤ → Bool
  | none => true
  | some v => decide (lo ≤ v ∧ v ≤ hi)

/-- The read-modify-write overlay of `setup_analog_output`
(`value=[c if v is None else v for c,v in zip(current,[...])]`): each
provided field replaces the current one, each `None` field keeps it. -/
def overlayAnalog (cur : AnalogRaw) (bipolar : Option Bool) (mode : Option ℤ)
    (channel : Option ℤ) (source : Option ℤ) (high_value low_value man_value : Option ℚ) :
    AnalogRaw :=
  ⟨bipolar.getD cur.bipolar, mode.getD cur.mode, channel.getD cur.channel,
   source.getD cur.source, high_value.getD cur.high_value,
   low_value.getD cur.low_value, man_value.getD cur.man_value⟩

namespace Lakeshore218

/-- `is_enabled(channel)`: `channel` validated by `_p_channel` (range 1..8),
then `ask("INPUT? ch", "bool")`. -/
def is_enabled (dev : Dev218) (channel : ℤ) :
    Except PyErr Bool × Dev218 × List Cmd :=
  if 1 ≤ channel ∧ channel ≤ 8 then
    (.ok (dev.inputEnabled channel), dev, [.ask "INPUT?" [.int channel]])
  else (.error (.invalidParameter "channel"), dev, [])

/-- `set_enabled(channel, enabled)`: `write("INPUT ch 1|0")`, then
`return self.is_enabled(channel)`. -/
def set_enabled (dev : Dev218) (channel : ℤ) (enabled : Bool) :
    Except PyErr Bool × Dev218 × List Cmd :=
  if 1 ≤ channel ∧ channel ≤ 8 then
    let c := Cmd.write "INPUT" [.int channel, .int (if enabled then 1 else 0)]
    let dev1 := devApply218 dev c
    let r := is_enabled dev1 channel
    (r.1, r.2.1, c :: r.2.2)
  else (.error (.invalidParameter "channel"), dev, [])

/-- `get_sensor_type(group)`: `group` validated by `_p_group` ({A,B}), then
`ask("INTYPE? g", "int")`.  The decorator carries no `_returns`, so the
integer device code is returned as-is (a dynamic value). -/
def get_sensor_type (dev : Dev218) (group : String) :
    Except PyErr PyVal × Dev218 × List Cmd :=
  if group = "A" ∨ group = "B" then
    (.ok (.int (dev.sensorType group)), dev, [.ask "INTYPE?" [.str group]])
  else (.error (.invalidParameter "group"), dev, [])

/-- `set_sensor_type(group, sensor_type)`: the alias is translated by
`_p_sensor_type`, `write("INTYPE g code")` is sent, `wait_dev()` issues an
operation-complete query, and the result of `get_sensor_type(group)` is
returned. -/
def set_sensor_type (dev : Dev218) (group : String) (sensor_type : String) :
    Except PyErr PyVal × Dev218 × List Cmd :=
  if group = "A" ∨ group = "B" then
    match sensorTypeEnum.lookup sensor_type with
    | some code =>
      let c := Cmd.write "INTYPE" [.str group, .int code]
      let dev1 := devApply218 dev c
      let r := get_sensor_type dev1 group
      (r.1, r.2.1, c :: .ask "*OPC?" [] :: r.2.2)
    | none => (.error (.invalidParameter "sensor_type"), dev, [])
  else (.error (.invalidParameter "group"), dev, [])

/-- `get_all_temperatures()`: one raw all-channels query `KRDG? 0`, reply
parsed as `[float(x.strip()) for x in data.split(",")]`. -/
def get_all_temperatures (dev : Dev218) :
    Except PyErr (List ℚ) × Dev218 × List Cmd :=
  let data := krdgAllReply dev
  (.ok ((splitComma data).map (fun x => pyFloatChars (pyStrip x))), dev,
   [.ask "KRDG?" [.int 0]])

/-- The undecorated body of `get_analog_output_settings`, as invoked through
`_call_without_parameters`: `ask("ANALOG? o", [...])` giving the seven raw
device fields, no validation and no return translation. -/
def get_analog_output_settings_raw (dev : Dev218) (output : ℤ) :
    AnalogRaw × Dev218 × List Cmd :=
  (dev.analog output, dev, [.ask "ANALOG?" [.int output]])

/-- `get_analog_output_settings(output)`: `output` validated by `_p_output`
(range 1..2); the raw fields are read and, per the `_returns` declaration of
the decorator, mode and source are translated back to their symbolic
names. -/
def get_analog_output_settings (dev : Dev218) (output : ℤ) :
    Except PyErr AnalogSettings × Dev218 × List Cmd :=
  if 1 ≤ output ∧ output ≤ 2 then
    let r := get_analog_output_settings_raw dev output
    let raw := r.1
    match revLookup outputModeEnum raw.mode, revLookup sourceEnum raw.source with
    | some m, some s =>
        (.ok ⟨raw.bipolar, m, raw.channel, s, raw.high_value, raw.low_value, raw.man_value⟩,
         r.2.1, r.2.2)
    | _, _ => (.error (.invalidParameter "analog"), r.2.1, r.2.2)
  else (.error (.invalidParameter "output"), dev, [])

/-- `setup_analog_output(output, bipolar, mode, channel, source, high_value,
low_value, man_value)`: arguments translated/validated by the decorator
(mode via `output_mode`, source via `_p_source`, channel via `_p_channel`,
output via `_p_output`); the current settings are read through
`_call_without_parameters`, the provided fields are overlaid, the full
aggregate is written as one `ANALOG` command, and the settings are read back
and returned. -/
def setup_analog_output (dev : Dev218) (output : ℤ) (bipolar : Option Bool)
    (mode : Option String) (channel : Option ℤ) (source : Option String)
    (high_value low_value man_value : Option ℚ) :
    Except PyErr AnalogSettings × Dev218 × List Cmd :=
  if 1 ≤ output ∧ output ≤ 2 then
    match mapOptEnum outputModeEnum mode, mapOptEnum sourceEnum source with
    | some modeD, some sourceD =>
      if checkOptRange 1 8 channel then
        let rr := get_analog_output_settings_raw dev output
        let v := overlayAnalog rr.1 bipolar modeD channel sourceD high_value low_value man_value
        let c := Cmd.write "ANALOG"
          [.int output, .bool v.bipolar, .int v.mode, .int v.channel, .int v.source,
           .float v.high_value, .float v.low_value, .float v.man_value]
        let dev1 := devApply218 rr.2.1 c
        let r := get_analog_output_settings dev1 output
        (r.1, r.2.1, rr.2.2 ++ c :: r.2.2)
      else (.error (.invalidParameter "channel"), dev, [])
    | _, _ => (.error (.invalidParameter "mode"), dev, [])
  else (.error (.invalidParameter "output"), dev, [])

end Lakeshore218

/-! ## Lakeshore 370 device model and driver methods -/

/-- Modelled from the spec: the state the Lakeshore 370 instrument holds that
this driver touches: per-channel analog output value (read by `AOUT?`), the
raw `CSET?` reply text, the `MOUT?` output percentage and the `HTRRNG?`
heater range. -/
structure Dev370 where
  aout : ℤ → ℚ
  csetReply : List Char
  mout : ℚ
  htrrng : ℤ

/-- Modelled from the spec: the 370 instrument applying a configuration
command it receives.  `HTRRNG` sets the heater range, `MOUT` the output
percentage, and `ANALOG` (in the eight-field form this driver sends) the
manual analog value of the addressed channel. Other commands leave the
modelled state unchanged. -/
def devApply370 (dev : Dev370) : Cmd → Dev370
  | .write "HTRRNG" [.int r] => { dev with htrrng := r }
  | .write "MOUT" [.float p] => { dev with mout := p }
  | .write "ANALOG" [.int ch, .int _, .int _, .int _, .int _, .float _, .int _, .float v] =>
      { dev with aout := fun x => if x = ch then v else dev.aout x }
  | _ => dev

/-- Modelled from the spec: `funcargparse.check_parameter_range` (not under
`src/`); per the spec, the value "must be one of {I,V}, validated before
sending; fails with an invalid-parameter condition otherwise". -/
def check_parameter_range (value name : String) (allowed : List String) :
    Except PyErr Unit :=
  if value ∈ allowed then .ok () else .error (.invalidParameter name)

/-- The zero-value disable form of the 370 `ANALOG` command:
`"ANALOG ch,0,0,1,1,500.,0,0."`. -/
def analogZeroCmd (channel : ℤ) : Cmd :=
  .write "ANALOG" [.int channel, .int 0, .int 0, .int 1, .int 1, .float 500, .int 0, .float 0]

/-- The manual-value form of the 370 `ANALOG` command:
`"ANALOG ch,0,2,1,1,500.,0,value"`. -/
def analogManualCmd (channel : ℤ) (value : ℚ) : Cmd :=
  .write "ANALOG" [.int channel, .int 0, .int 2, .int 1, .int 1, .float 500, .int 0, .float value]

namespace Lakeshore370

/-- `setup_channel(channel, mode, exc_range, res_range, autorange)`: the mode
is validated first (`check_parameter_range(mode, "mode", "IV")`), a `None`
channel becomes 0, mode maps to 0 for V and 1 for I, and one `RDGRNG` command
is sent. -/
def setup_channel (dev : Dev370) (channel : Option ℤ) (mode : String)
    (exc_range res_range : ℤ) (autorange : Bool) :
    Except PyErr Unit × Dev370 × List Cmd :=
  match check_parameter_range mode "mode" ["I", "V"] with
  | .error e => (.error e, dev, [])
  | .ok _ =>
    let ch := channel.getD 0
    let m : ℤ := if mode = "V" then 0 else 1
    let ar : ℤ := if autorange then 1 else 0
    let c := Cmd.write "RDGRNG" [.int ch, .int m, .int exc_range, .int res_range, .int ar, .int 0]
    (.ok (), devApply370 dev c, [c])

/-- `setup_heater_openloop(heater_range, heater_percent, heater_res)`: the
four writes `CMODE 3`, `CSET 1,0,1,25,1,range,res`, `HTRRNG range`,
`MOUT percent`, in this order. -/
def setup_heater_openloop (dev : Dev370) (heater_range : ℤ)
    (heater_percent : ℚ) (heater_res : ℚ) :
    Except PyErr Unit × Dev370 × List Cmd :=
  let c1 := Cmd.write "CMODE" [.int 3]
  let c2 := Cmd.write "CSET" [.int 1, .int 0, .int 1, .int 25, .int 1, .int heater_range, .float heater_res]
  let c3 := Cmd.write "HTRRNG" [.int heater_range]
  let c4 := Cmd.write "MOUT" [.float heater_percent]
  let dev4 := devApply370 (devApply370 (devApply370 (devApply370 dev c1) c2) c3) c4
  (.ok (), dev4, [c1, c2, c3, c4])

/-- `get_heater_settings_openloop()`: the raw `CSET?` reply is split on
commas and stripped, `MOUT?` is read as a float and `HTRRNG?` as an int, and
the result is `(heater_range, heater_percent, float(cset_reply[6]))`. -/
def get_heater_settings_openloop (dev : Dev370) :
    Except PyErr (ℤ × ℚ × ℚ) × Dev370 × List Cmd :=
  let fields := (splitComma dev.csetReply).map pyStrip
  let trace := [Cmd.ask "CSET?" [], Cmd.ask "MOUT?" [], Cmd.ask "HTRRNG?" []]
  match fields.get? 6 with
  | some f => (.ok (dev.htrrng, dev.mout, pyFloatChars f), dev, trace)
  | none => (.error .indexError, dev, trace)

/-- `get_analog_output(channel)`: `ask("AOUT? ch", "float")`. -/
def get_analog_output (dev : Dev370) (channel : ℤ) :
    Except PyErr ℚ × Dev370 × List Cmd :=
  (.ok (dev.aout channel), dev, [.ask "AOUT?" [.int channel]])

/-- `set_analog_output(channel, value)`: the zero-value disable `ANALOG` form
when `value == 0`, the manual-value form carrying `value` otherwise; then
`return self.get_analog_output(channel)`. -/
def set_analog_output (dev : Dev370) (channel : ℤ) (value : ℚ) :
    Except PyErr ℚ × Dev370 × List Cmd :=
  let c := if value = 0 then analogZeroCmd channel else analogManualCmd channel value
  let dev1 := devApply370 dev c
  let r := get_analog_output dev1 channel
  (r.1, r.2.1, c :: r.2.2)

end Lakeshore370

/-! ## Construction -/

/-- Transport-level errors (`self.instr.Error`), surfaced by the backend on a
timeout or I/O failure of the identification query. -/
inductive InstrError where
  | timeoutError
  | ioError (code : ℤ)
deriving DecidableEq

/-- Events of the construction sequence. -/
inductive CtorEvent where
  | openConn (backend : String)
  | askID (timeoutSeconds : ℚ)
  | closeConn
deriving DecidableEq

/-- `self.instr.BackendOpenError`, wrapping the underlying transport
error. -/
structure BackendOpenError where
  cause : InstrError
deriving DecidableEq

/-- Connection state of the backend. -/
structure Conn where
  isOpen : Bool
deriving DecidableEq

/-- `close()` on the backend. -/
def Conn.close (_c : Conn) : Conn := ⟨false⟩

/-- Shared constructor tail of both drivers: the backend is opened by
`SCPIDevice.__init__`, `get_id(timeout=2.)` is issued, and on a transport
error `e` the connection is closed and `BackendOpenError(e)` is raised.
`idReply` is the outcome of the identification query (Modelled from the
spec: the query itself happens in the missing SCPI layer). -/
def lakeshoreInit (backend : String) (idReply : Except InstrError String) :
    Except BackendOpenError String × Conn × List CtorEvent :=
  let conn : Conn := ⟨true⟩
  match idReply with
  | .ok s => (.ok s, conn, [.openConn backend, .askID 2])
  | .error e =>
      (.error ⟨e⟩, conn.close, [.openConn backend, .askID 2, .closeConn])

/-- `Lakeshore218.__init__`: serial backend (default
`("COM1",9600,7,'E',1)`), then the shared identification sequence. -/
def Lakeshore218.init (idReply : Except InstrError String) :
    Except BackendOpenError String × Conn × List CtorEvent :=
  lakeshoreInit "serial COM1 9600 7 E 1" idReply

/-- `Lakeshore370.__init__`: default backend parameters, then the shared
identification sequence. -/
def Lakeshore370.init (idReply : Except InstrError String) :
    Except BackendOpenError String × Conn × List CtorEvent :=
  lakeshoreInit "default" idReply

/-! ## Concrete example devices (used by witnesses and counterexamples) -/

/-- An example 218 device state. -/
def dev218ex : Dev218 :=
  { inputEnabled := fun _ => false
    sensorType := fun _ => 0
    analog := fun _ => ⟨false, 0, 1, 1, 0, 0, 0⟩
    tempsMilliK := [0, 77500, 300000, 1, 20, 300, 4000, 50000] }

/-- An example 370 device state. -/
def dev370ex : Dev370 :=
  { aout := fun _ => 0
    csetReply := "1,1,1,1,1,8,100.0".data
    mout := 50
    htrrng := 8 }

/-! ## Helper lemmas on the wire text utilities -/

theorem digitToNat_digitChar {d : Nat} (h : d < 10) :
    digitToNat (Nat.digitChar d) = d := by
  interval_cases d <;> decide

theorem digitChar_bounds {d : Nat} (h : d < 10) :
    48 ≤ (Nat.digitChar d).toNat ∧ (Nat.digitChar d).toNat ≤ 57 := by
  interval_cases d <;> decide

theorem natDigits_mem (n : Nat) :
    ∀ c ∈ natDigits n, 48 ≤ c.toNat ∧ c.toNat ≤ 57 := by
  induction n using Nat.strong_induction_on with
  | _ n ih =>
    rw [natDigits]
    split
    · next h =>
      intro c hc
      rw [List.mem_singleton] at hc
      exact hc ▸ digitChar_bounds h
    · next h =>
      intro c hc
      rcases List.mem_append.1 hc with hc | hc
      · exact ih (n / 10) (Nat.div_lt_self (by omega) (by omega)) c hc
      · rw [List.mem_singleton] at hc
        exact hc ▸ digitChar_bounds (Nat.mod_lt _ (by omega))

theorem digitsVal_append_singleton (xs : List Char) (c : Char) :
    digitsVal (xs ++ [c]) = digitsVal xs * 10 + digitToNat c := by
  simp [digitsVal, List.foldl_append]

theorem digitsVal_natDigits (n : Nat) : digitsVal (natDigits n) = n := by
  induction n using Nat.strong_induction_on with
  | _ n ih =>
    rw [natDigits]
    split
    · next h =>
      simp [digitsVal, digitToNat_digitChar h]
    · next h =>
      rw [digitsVal_append_singleton,
        ih (n / 10) (Nat.div_lt_self (by omega) (by omega)),
        digitToNat_digitChar (Nat.mod_lt _ (by omega))]
      omega

theorem takeWhile_middle (p : Char → Bool) (xs : List Char) (y : Char)
    (ys : List Char) (hx : ∀ x ∈ xs, p x = true) (hy : p y = false) :
    ((xs ++ y :: ys).takeWhile p) = xs := by
  induction xs with
  | nil => simp [List.takeWhile_cons, hy]
  | cons a as ih =>
    rw [List.cons_append, List.takeWhile_cons, hx a (List.mem_cons_self _ _),
      if_pos rfl, ih fun x hm => hx x (List.mem_cons_of_mem _ hm)]

theorem dropWhile_middle (p : Char → Bool) (xs : List Char) (y : Char)
    (ys : List Char) (hx : ∀ x ∈ xs, p x = true) (hy : p y = false) :
    ((xs ++ y :: ys).dropWhile p) = y :: ys := by
  induction xs with
  | nil => simp [List.dropWhile_cons, hy]
  | cons a as ih =>
    simp only [List.cons_append, List.dropWhile_cons,
      hx a (List.mem_cons_self _ _), if_true]
    exact ih fun x hm => hx x (List.mem_cons_of_mem _ hm)

theorem dropWhile_of_all_neg (p : Char → Bool) (l : List Char)
    (h : ∀ c ∈ l, p c = false) : l.dropWhile p = l := by
  cases l with
  | nil => rfl
  | cons a as => simp [List.dropWhile_cons, h a (List.mem_cons_self _ _)]

theorem pyStrip_of_no_space (l : List Char)
    (h : ∀ c ∈ l, isSpaceChar c = false) : pyStrip l = l := by
  unfold pyStrip
  rw [dropWhile_of_all_neg _ _ h,
    dropWhile_of_all_neg _ _ (fun c hc => h c (List.mem_reverse.1 hc)),
    List.reverse_reverse]

theorem splitComma_no_comma (xs : List Char) (h : ',' ∉ xs) :
    splitComma xs = [xs] := by
  induction xs with
  | nil => rfl
  | cons c rest ih =>
    have hc : ¬ c = ',' := fun e => h (e ▸ List.mem_cons_self _ _)
    rw [splitComma, if_neg hc, ih fun m => h (List.mem_cons_of_mem _ m)]

theorem splitComma_append (xs rest : List Char) (h : ',' ∉ xs) :
    splitComma (xs ++ ',' :: rest) = xs :: splitComma rest := by
  induction xs with
  | nil => simp [splitComma]
  | cons c cs ih =>
    have hc : ¬ c = ',' := fun e => h (e ▸ List.mem_cons_self _ _)
    rw [List.cons_append, splitComma, if_neg hc,
      ih fun m => h (List.mem_cons_of_mem _ m)]

theorem splitComma_joinComma (fields : List (List Char))
    (h : ∀ f ∈ fields, ',' ∉ f) (hne : fields ≠ []) :
    splitComma (joinComma fields) = fields := by
  induction fields with
  | nil => exact absurd rfl hne
  | cons f fs ih =>
    cases fs with
    | nil => exact splitComma_no_comma f (h f (List.mem_cons_self _ _))
    | cons g gs =>
      rw [joinComma, splitComma_append _ _ (h f (List.mem_cons_self _ _)),
        ih (fun x hm => h x (List.mem_cons_of_mem _ hm)) (by intro hc; exact List.noConfusion hc)]
      intro hc
      exact List.noConfusion hc

theorem frac3_mem {m : Nat} (h : m < 1000) :
    ∀ c ∈ frac3 m, 48 ≤ c.toNat ∧ c.toNat ≤ 57 := by
  intro c hc
  simp only [frac3, List.mem_cons, List.mem_singleton, List.not_mem_nil] at hc
  rcases hc with rfl | rfl | rfl | hc
  · exact digitChar_bounds (by omega)
  · exact digitChar_bounds (Nat.mod_lt _ (by omega))
  · exact digitChar_bounds (Nat.mod_lt _ (by omega))
  · exact absurd hc (by simp)

theorem renderMilliK_mem (n : Nat) :
    ∀ c ∈ renderMilliK n, (48 ≤ c.toNat ∧ c.toNat ≤ 57) ∨ c = '.' := by
  intro c hc
  rcases List.mem_append.1 hc with hc | hc
  · exact Or.inl (natDigits_mem _ c hc)
  · rcases List.mem_cons.1 hc with rfl | hc
    · exact Or.inr rfl
    · exact Or.inl (frac3_mem (Nat.mod_lt _ (by omega)) c hc)

theorem renderMilliK_no_comma (n : Nat) : ',' ∉ renderMilliK n := by
  intro hc
  rcases renderMilliK_mem n ',' hc with h | h
  · rw [show (',' : Char).toNat = 44 from by decide] at h
    omega
  · exact absurd h (by decide)

theorem renderMilliK_no_space (n : Nat) :
    ∀ c ∈ renderMilliK n, isSpaceChar c = false := by
  intro c hc
  rcases renderMilliK_mem n c hc with h | rfl
  · have hs : ∀ s : Char, s.toNat < 48 → c ≠ s := by
      intro s hl e
      subst e
      omega
    simp [isSpaceChar, hs ' ' (by decide), hs '\t' (by decide),
      hs '\n' (by decide), hs '\r' (by decide)]
  · decide

theorem digitsVal_frac3 {m : Nat} (h : m < 1000) : digitsVal (frac3 m) = m := by
  have h1 : m / 100 < 10 := by omega
  have h2 : m / 10 % 10 < 10 := Nat.mod_lt _ (by omega)
  have h3 : m % 10 < 10 := Nat.mod_lt _ (by omega)
  simp only [digitsVal, frac3, List.foldl_cons, List.foldl_nil,
    digitToNat_digitChar h1, digitToNat_digitChar h2, digitToNat_digitChar h3]
  omega

theorem natDigits_not_dot (n : Nat) :
    ∀ c ∈ natDigits n, (fun c => decide (c ≠ '.')) c = true := by
  intro c hc
  have hb := natDigits_mem n c hc
  simp only [decide_eq_true_eq]
  intro e
  subst e
  rw [show ('.' : Char).toNat = 46 from by decide] at hb
  omega

theorem pyFloatChars_renderMilliK (n : Nat) :
    pyFloatChars (renderMilliK n) = (n : ℚ) / 1000 := by
  have hdot : (fun c => decide (c ≠ '.')) '.' = false := by simp
  rw [pyFloatChars, renderMilliK,
    dropWhile_middle _ _ _ _ (natDigits_not_dot _) hdot]
  simp only
  rw [takeWhile_middle _ _ _ _ (natDigits_not_dot _) hdot,
    digitsVal_natDigits, digitsVal_frac3 (Nat.mod_lt _ (by omega))]
  have hlen : (frac3 (n % 1000)).length = 3 := rfl
  rw [hlen]
  have hmod : (1000 : ℚ) * ((n / 1000 : ℕ) : ℚ) + ((n % 1000 : ℕ) : ℚ) = (n : ℚ) := by
    exact_mod_cast congrArg (Nat.cast : ℕ → ℚ) (Nat.div_add_mod n 1000)
  have h10 : (10 : ℚ) ^ 3 = 1000 := by norm_num
  rw [h10]
  field_simp
  linarith

theorem renderMilliK_fields_parse (temps : List Nat) :
    (temps.map renderMilliK).map (fun x => pyFloatChars (pyStrip x)) =
      temps.map (fun n : ℕ => (n : ℚ) / 1000) := by
  rw [List.map_map]
  refine List.map_congr_left ?_
  intro n _
  simp only [Function.comp]
  rw [pyStrip_of_no_space _ (renderMilliK_no_space n), pyFloatChars_renderMilliK]

/-! ## Claim theorems -/

/-- C9: `get_all_temperatures` issues exactly one query (the all-channels
form `KRDG? 0`) and parses its comma-separated reply into an ordered sequence
of floats covering all 8 channels, in channel order. -/
theorem C9_get_all_temperatures (dev : Dev218) (h8 : dev.tempsMilliK.length = 8) :
    (Lakeshore218.get_all_temperatures dev).2.2 = [Cmd.ask "KRDG?" [.int 0]] ∧
    (Lakeshore218.get_all_temperatures dev).1 =
      .ok (dev.tempsMilliK.map (fun n : ℕ => (n : ℚ) / 1000)) ∧
    (dev.tempsMilliK.map (fun n : ℕ => (n : ℚ) / 1000)).length = 8 := by
  have hfields : ∀ f ∈ dev.tempsMilliK.map renderMilliK, ',' ∉ f := by
    intro f hf
    rcases List.mem_map.1 hf with ⟨n, _, rfl⟩
    exact renderMilliK_no_comma n
  have hne : dev.tempsMilliK.map renderMilliK ≠ [] := by
    intro e
    rw [List.map_eq_nil_iff] at e
    rw [e] at h8
    exact absurd h8 (by decide)
  refine ⟨rfl, ?_, by rw [List.length_map, h8]⟩
  show Except.ok ((splitComma (krdgAllReply dev)).map (fun x => pyFloatChars (pyStrip x))) =
    Except.ok (dev.tempsMilliK.map (fun n : ℕ => (n : ℚ) / 1000))
  rw [krdgAllReply, splitComma_joinComma _ hfields hne, renderMilliK_fields_parse]

/-- C9 witness: the theorem instantiated at the example device. -/
theorem C9_witness :
    dev218ex.tempsMilliK.length = 8 ∧
    ((Lakeshore218.get_all_temperatures dev218ex).2.2 = [Cmd.ask "KRDG?" [.int 0]] ∧
     (Lakeshore218.get_all_temperatures dev218ex).1 =
       .ok (dev218ex.tempsMilliK.map (fun n : ℕ => (n : ℚ) / 1000)) ∧
     (dev218ex.tempsMilliK.map (fun n : ℕ => (n : ℚ) / 1000)).length = 8) :=
  ⟨by decide, C9_get_all_temperatures dev218ex (by decide)⟩

/-- C2 counterexample: `setup_heater_openloop` issues four commands, not
three, at the concrete argument triple (1, 50, 100). -/
theorem C2_counterexample :
    (Lakeshore370.setup_heater_openloop dev370ex 1 50 100).2.2.length = 4 ∧
    (Lakeshore370.setup_heater_openloop dev370ex 1 50 100).2.2.length ≠ 3 := by
  exact ⟨rfl, by decide⟩

/-- C2 (amended): `setup_heater_openloop(heater_range, heater_percent,
heater_res)` issues exactly the fixed sequence of four configuration
commands — mode selection (`CMODE 3`), control-loop setup (`CSET`), range
(`HTRRNG`), output percent (`MOUT`) — in that order, for every argument
triple. -/
theorem C2_heater_openloop_commands (dev : Dev370) (heater_range : ℤ)
    (heater_percent heater_res : ℚ) :
    Lakeshore370.setup_heater_openloop dev heater_range heater_percent heater_res =
      (.ok (),
       { dev with htrrng := heater_range, mout := heater_percent },
       [Cmd.write "CMODE" [.int 3],
        Cmd.write "CSET" [.int 1, .int 0, .int 1, .int 25, .int 1, .int heater_range, .float heater_res],
        Cmd.write "HTRRNG" [.int heater_range],
        Cmd.write "MOUT" [.float heater_percent]]) := rfl

/-- C3 counterexample: `get_heater_settings_openloop` issues three queries,
not two, on the example device. -/
theorem C3_counterexample :
    (Lakeshore370.get_heater_settings_openloop dev370ex).2.2 =
      [Cmd.ask "CSET?" [], Cmd.ask "MOUT?" [], Cmd.ask "HTRRNG?" []] ∧
    (Lakeshore370.get_heater_settings_openloop dev370ex).2.2.length ≠ 2 := by
  exact ⟨rfl, by decide⟩

/-- C3 (amended): `get_heater_settings_openloop` reads back
(heater_range, heater_percent, heater_res) by combining three separate
queries — one multi-field (`CSET?`) and two single-field (`MOUT?`,
`HTRRNG?`) — with the multi-field reply parsed by fixed position (the
resistance taken from comma-separated field index 6). -/
theorem C3_heater_settings_readback (dev : Dev370) (f : List Char)
    (h : ((splitComma dev.csetReply).map pyStrip).get? 6 = some f) :
    Lakeshore370.get_heater_settings_openloop dev =
      (.ok (dev.htrrng, dev.mout, pyFloatChars f), dev,
       [Cmd.ask "CSET?" [], Cmd.ask "MOUT?" [], Cmd.ask "HTRRNG?" []]) := by
  simp only [Lakeshore370.get_heater_settings_openloop]
  rw [h]

/-- C3 witness: the amended theorem instantiated at the example device,
whose `CSET?` reply has seven fields with field 6 equal to `100.0`. -/
theorem C3_witness :
    ((splitComma dev370ex.csetReply).map pyStrip).get? 6 = some "100.0".data ∧
    Lakeshore370.get_heater_settings_openloop dev370ex =
      (.ok (dev370ex.htrrng, dev370ex.mout, pyFloatChars "100.0".data), dev370ex,
       [Cmd.ask "CSET?" [], Cmd.ask "MOUT?" [], Cmd.ask "HTRRNG?" []]) :=
  ⟨by decide, C3_heater_settings_readback dev370ex "100.0".data (by decide)⟩

/-- C6: `set_analog_output(channel, value)` sends the distinct zero-value
disable `ANALOG` form when value = 0 and the manual-value form carrying the
given value otherwise, followed by the `AOUT?` read-back; the two forms are
distinct commands. -/
theorem C6_set_analog_output_forms (dev : Dev370) (channel : ℤ) (value : ℚ) :
    (Lakeshore370.set_analog_output dev channel value).2.2 =
      [if value = 0 then analogZeroCmd channel else analogManualCmd channel value,
       Cmd.ask "AOUT?" [.int channel]] ∧
    analogZeroCmd channel ≠ analogManualCmd channel value := by
  constructor
  · by_cases h : value = 0 <;>
      simp [Lakeshore370.set_analog_output, Lakeshore370.get_analog_output, h]
  · intro e
    simp [analogZeroCmd, analogManualCmd] at e

/-- C7: during construction of either driver, a transport error of the
identification query leaves the connection closed (with the close happening
before the failure is surfaced) and raises a connection-open error wrapping
the underlying transport error. -/
theorem C7_init_failure_closes_and_wraps (e : InstrError) :
    Lakeshore218.init (.error e) =
      (.error ⟨e⟩, ⟨false⟩,
       [.openConn "serial COM1 9600 7 E 1", .askID 2, .closeConn]) ∧
    Lakeshore370.init (.error e) =
      (.error ⟨e⟩, ⟨false⟩, [.openConn "default", .askID 2, .closeConn]) :=
  ⟨rfl, rfl⟩

/-- C10: `setup_channel` with channel omitted sends channel number 0 in the
`RDGRNG` command, so omitting the channel configures the device-side current
channel rather than failing. -/
theorem C10_setup_channel_default_channel (dev : Dev370) (mode : String)
    (exc_range res_range : ℤ) (autorange : Bool) (h : mode = "I" ∨ mode = "V") :
    (Lakeshore370.setup_channel dev none mode exc_range res_range autorange).2.2 =
      [Cmd.write "RDGRNG"
        [.int 0, .int (if mode = "V" then 0 else 1), .int exc_range, .int res_range,
         .int (if autorange then 1 else 0), .int 0]] ∧
    (Lakeshore370.setup_channel dev none mode exc_range res_range autorange).1 = .ok () := by
  have hm : check_parameter_range mode "mode" ["I", "V"] = .ok () := by
    rcases h with rfl | rfl <;> rfl
  simp [Lakeshore370.setup_channel, hm]

/-- C10 witness: the theorem instantiated at mode V on the example device. -/
theorem C10_witness :
    ("V" = "I" ∨ "V" = "V") ∧
    ((Lakeshore370.setup_channel dev370ex none "V" 1 22 true).2.2 =
      [Cmd.write "RDGRNG"
        [.int 0, .int (if "V" = "V" then 0 else 1), .int 1, .int 22,
         .int (if true then 1 else 0), .int 0]] ∧
     (Lakeshore370.setup_channel dev370ex none "V" 1 22 true).1 = .ok ()) :=
  ⟨Or.inr rfl, C10_setup_channel_default_channel dev370ex "V" 1 22 true (Or.inr rfl)⟩

/-- C1 counterexample: `set_sensor_type("A", "cernox")` (and reading back
with `get_sensor_type`) returns the integer device code 5, not the symbolic
type `cernox`: `get_sensor_type` is not decorated with a return translation,
so the round trip does not return `t` itself. -/
theorem C1_counterexample :
    (Lakeshore218.set_sensor_type dev218ex "A" "cernox").1 = .ok (.int 5) ∧
    (Lakeshore218.get_sensor_type
        (Lakeshore218.set_sensor_type dev218ex "A" "cernox").2.1 "A").1 =
      .ok (.int 5) ∧
    PyVal.int 5 ≠ PyVal.str "cernox" := by
  exact ⟨rfl, rfl, by decide⟩

/-- C1 (amended): for every group in {A,B} and every sensor type `t` of the
fixed enumeration, `set_sensor_type(group, t)` followed by
`get_sensor_type(group)` (equivalently, the value returned by
`set_sensor_type` itself, which reads back) returns the integer device code
of `t` under the fixed mapping (diode_2.5 to 0, diode_7.5 to 1, plat_250 to
2, plat_500 to 3, plat_5k to 4, cernox to 5), not the symbolic value `t`. -/
theorem C1_set_get_sensor_type_code (dev : Dev218) (g t : String) (code : ℤ)
    (hg : g = "A" ∨ g = "B") (ht : sensorTypeEnum.lookup t = some code) :
    (Lakeshore218.set_sensor_type dev g t).1 = .ok (.int code) ∧
    (Lakeshore218.get_sensor_type (Lakeshore218.set_sensor_type dev g t).2.1 g).1 =
      .ok (.int code) := by
  simp only [Lakeshore218.set_sensor_type, Lakeshore218.get_sensor_type,
    if_pos hg, ht, devApply218]
  simp

/-- C1 witness: the amended theorem instantiated at group B and type
plat_5k (code 4). -/
theorem C1_witness :
    ("B" = "A" ∨ "B" = "B") ∧
    sensorTypeEnum.lookup "plat_5k" = some 4 ∧
    ((Lakeshore218.set_sensor_type dev218ex "B" "plat_5k").1 = .ok (.int 4) ∧
     (Lakeshore218.get_sensor_type
        (Lakeshore218.set_sensor_type dev218ex "B" "plat_5k").2.1 "B").1 =
       .ok (.int 4)) :=
  ⟨by decide, by decide,
   C1_set_get_sensor_type_code dev218ex "B" "plat_5k" 4 (by decide) (by decide)⟩

/-- C4: for every mode string not in {I,V}, `setup_channel` fails with an
invalid-parameter error before sending any command; for mode in {I,V} it
sends exactly one `RDGRNG` command. -/
theorem C4_setup_channel_validation (dev : Dev370) (channel : Option ℤ)
    (mode : String) (exc_range res_range : ℤ) (autorange : Bool) :
    (mode ∉ (["I", "V"] : List String) →
      Lakeshore370.setup_channel dev channel mode exc_range res_range autorange =
        (.error (.invalidParameter "mode"), dev, [])) ∧
    (mode ∈ (["I", "V"] : List String) →
      Lakeshore370.setup_channel dev channel mode exc_range res_range autorange =
        (.ok (), dev,
         [Cmd.write "RDGRNG"
           [.int (channel.getD 0), .int (if mode = "V" then 0 else 1),
            .int exc_range, .int res_range, .int (if autorange then 1 else 0),
            .int 0]])) := by
  constructor
  · intro hmem
    have hm : check_parameter_range mode "mode" ["I", "V"] =
        .error (.invalidParameter "mode") := by
      rw [check_parameter_range, if_neg hmem]
    simp [Lakeshore370.setup_channel, hm]
  · intro hmem
    have hm : check_parameter_range mode "mode" ["I", "V"] = .ok () := by
      rw [check_parameter_range, if_pos hmem]
    simp only [Lakeshore370.setup_channel, hm]
    rfl

/-- C4 witness: mode X fails without sending a command; mode I sends exactly
one RDGRNG command. -/
theorem C4_witness :
    ("X" ∉ (["I", "V"] : List String)) ∧
    Lakeshore370.setup_channel dev370ex (some 3) "X" 1 22 true =
      (.error (.invalidParameter "mode"), dev370ex, []) ∧
    ("I" ∈ (["I", "V"] : List String)) ∧
    Lakeshore370.setup_channel dev370ex (some 3) "I" 1 22 true =
      (.ok (), dev370ex,
       [Cmd.write "RDGRNG"
         [.int ((some (3 : ℤ)).getD 0), .int (if "I" = "V" then 0 else 1),
          .int 1, .int 22, .int (if true then 1 else 0), .int 0]]) :=
  ⟨by decide,
   (C4_setup_channel_validation dev370ex (some 3) "X" 1 22 true).1 (by decide),
   by decide,
   (C4_setup_channel_validation dev370ex (some 3) "I" 1 22 true).2 (by decide)⟩

/-- C8: for every channel in [1,8], `set_enabled(c, b)` followed by
`is_enabled(c)` returns `b`, and `set_enabled` returns the post-set state
read back from the device (it returns exactly the result of `is_enabled`
on the post-write device state). -/
theorem C8_set_enabled_round_trip (dev : Dev218) (c : ℤ) (b : Bool)
    (h : 1 ≤ c ∧ c ≤ 8) :
    (Lakeshore218.set_enabled dev c b).1 = .ok b ∧
    (Lakeshore218.set_enabled dev c b).1 =
      (Lakeshore218.is_enabled (Lakeshore218.set_enabled dev c b).2.1 c).1 ∧
    (Lakeshore218.is_enabled (Lakeshore218.set_enabled dev c b).2.1 c).1 = .ok b := by
  have hb : ((if b then (1 : ℤ) else 0) != 0) = b := by cases b <;> decide
  simp only [Lakeshore218.set_enabled, Lakeshore218.is_enabled, if_pos h,
    devApply218]
  simp [hb]

/-- C8 witness: the theorem instantiated at channels 3 (enable) and 5
(disable) on the example device. -/
theorem C8_witness :
    ((1 : ℤ) ≤ 3 ∧ (3 : ℤ) ≤ 8) ∧
    (Lakeshore218.set_enabled dev218ex 3 true).1 = .ok true ∧
    ((1 : ℤ) ≤ 5 ∧ (5 : ℤ) ≤ 8) ∧
    (Lakeshore218.is_enabled (Lakeshore218.set_enabled dev218ex 5 false).2.1 5).1 =
      .ok false :=
  ⟨by decide,
   (C8_set_enabled_round_trip dev218ex 3 true (by decide)).1,
   by decide,
   (C8_set_enabled_round_trip dev218ex 5 false (by decide)).2.2⟩

/-- C5: for every output in {1,2}, `setup_analog_output` with a subset of
fields specified first reads the current settings from the device, overlays
only the specified fields, writes the full aggregate as one `ANALOG`
command, and returns the settings read back; every field passed as None
retains its prior device value, and the device settings afterwards are
exactly the overlay at the addressed output with every other output
unchanged. -/
theorem C5_setup_analog_output_rmw (dev : Dev218) (output : ℤ)
    (bipolar : Option Bool) (mode : Option String) (channel : Option ℤ)
    (source : Option String) (high_value low_value man_value : Option ℚ)
    (modeD sourceD : Option ℤ) (mStr sStr : String)
    (hout : 1 ≤ output ∧ output ≤ 2)
    (hm : mapOptEnum outputModeEnum mode = some modeD)
    (hs : mapOptEnum sourceEnum source = some sourceD)
    (hch : checkOptRange 1 8 channel = true)
    (hrm : revLookup outputModeEnum (modeD.getD (dev.analog output).mode) = some mStr)
    (hrs : revLookup sourceEnum (sourceD.getD (dev.analog output).source) = some sStr) :
    Lakeshore218.setup_analog_output dev output bipolar mode channel source
        high_value low_value man_value =
      (.ok ⟨bipolar.getD (dev.analog output).bipolar, mStr,
            channel.getD (dev.analog output).channel, sStr,
            high_value.getD (dev.analog output).high_value,
            low_value.getD (dev.analog output).low_value,
            man_value.getD (dev.analog output).man_value⟩,
       { dev with analog := fun x => if x = output then
           (overlayAnalog (dev.analog output) bipolar modeD channel sourceD
             high_value low_value man_value)
         else dev.analog x },
       [Cmd.ask "ANALOG?" [.int output],
        Cmd.write "ANALOG"
          [.int output,
           .bool (bipolar.getD (dev.analog output).bipolar),
           .int (modeD.getD (dev.analog output).mode),
           .int (channel.getD (dev.analog output).channel),
           .int (sourceD.getD (dev.analog output).source),
           .float (high_value.getD (dev.analog output).high_value),
           .float (low_value.getD (dev.analog output).low_value),
           .float (man_value.getD (dev.analog output).man_value)],
        Cmd.ask "ANALOG?" [.int output]]) := by
  simp only [Lakeshore218.setup_analog_output, if_pos hout, hm, hs, hch,
    Lakeshore218.get_analog_output_settings_raw,
    Lakeshore218.get_analog_output_settings, overlayAnalog, devApply218,
    if_true]
  simp only [if_pos rfl, if_pos hout, hrm, hrs]
  simp [hrm, hrs]

/-- C5 witness: configuring output 1 to manual mode with manual value 5 on
the example device leaves every other field at its prior value. -/
theorem C5_witness :
    ((1 : ℤ) ≤ 1 ∧ (1 : ℤ) ≤ 2) ∧
    mapOptEnum outputModeEnum (some "manual") = some (some 2) ∧
    mapOptEnum sourceEnum none = some none ∧
    checkOptRange 1 8 none = true ∧
    revLookup outputModeEnum ((some (2 : ℤ)).getD (dev218ex.analog 1).mode) = some "manual" ∧
    revLookup sourceEnum ((none : Option ℤ).getD (dev218ex.analog 1).source) = some "kelvin" ∧
    Lakeshore218.setup_analog_output dev218ex 1 none (some "manual") none none
        none none (some 5) =
      (.ok ⟨(none : Option Bool).getD (dev218ex.analog 1).bipolar, "manual",
            (none : Option ℤ).getD (dev218ex.analog 1).channel, "kelvin",
            (none : Option ℚ).getD (dev218ex.analog 1).high_value,
            (none : Option ℚ).getD (dev218ex.analog 1).low_value,
            (some (5 : ℚ)).getD (dev218ex.analog 1).man_value⟩,
       { dev218ex with analog := fun x => if x = 1 then
           overlayAnalog (dev218ex.analog 1) none (some 2) none none none none (some 5)
         else dev218ex.analog x },
       [Cmd.ask "ANALOG?" [.int 1],
        Cmd.write "ANALOG"
          [.int 1,
           .bool ((none : Option Bool).getD (dev218ex.analog 1).bipolar),
           .int ((some (2 : ℤ)).getD (dev218ex.analog 1).mode),
           .int ((none : Option ℤ).getD (dev218ex.analog 1).channel),
           .int ((none : Option ℤ).getD (dev218ex.analog 1).source),
           .float ((none : Option ℚ).getD (dev218ex.analog 1).high_value),
           .float ((none : Option ℚ).getD (dev218ex.analog 1).low_value),
           .float ((some (5 : ℚ)).getD (dev218ex.analog 1).man_value)],
        Cmd.ask "ANALOG?" [.int 1]]) :=
  ⟨by decide, by decide, by decide, by decide, by decide, by decide,
   C5_setup_analog_output_rmw dev218ex 1 none (some "manual") none none none
     none (some 5) (some 2) none "manual" "kelvin" (by decide) (by decide)
     (by decide) (by decide) (by decide) (by decide)⟩
